import Mathlib

/-!
Verification of the decision-and-command-synthesis policy engine of the
ffmpeg_convert batch transcoding script.

The Python module constants that form the configuration section of the
script (output codecs, forced-conversion codec lists, the audio bitrate
map, the default bitrate, CRF, the multithreading switch and the
copy-all-streams switch) are collected into a Config structure; the value
assigned in the source is defaultConfig.  Probed stream data (the dict
returned by scan_file) is the ScanRes structure; the external prober
itself is out of scope, so scan results enter as parameters.  Bitrates
are modelled as rationals, machine integers as Int.  Python string
operations on the ASCII codec labels are modelled character-wise.
-/

set_option linter.unusedVariables false

/-- Python str.upper, character-wise (codec labels are ASCII). -/
def pyUpper (s : String) : String := String.mk (s.data.map Char.toUpper)

/-- Python str.lower, character-wise (file suffixes are ASCII). -/
def pyLower (s : String) : String := String.mk (s.data.map Char.toLower)

/-- Python membership test of a character in a string. -/
def pyContainsChar (s : String) (c : Char) : Bool := s.data.contains c

/-- Python str.startswith. -/
def pyStartsWith (s t : String) : Bool := t.data.isPrefixOf s.data

/-- Python str.replace with a one-character pattern. -/
def pyReplaceChar (s : String) (c : Char) (r : String) : String :=
  String.mk (s.data.flatMap fun ch => if ch == c then r.data else [ch])

/-- Python truthiness test NOT s for an optional string: None and the
empty string are falsy. -/
def pyFalsyOpt : Option String → Bool
  | none => true
  | some s => s.data.isEmpty

/-- Python configuration constants of the script, gathered in one record. -/
structure Config where
  OUTPUT_VIDEO_CODEC : String
  OUTPUT_AUDIO_CODEC : String
  FORCE_CONVERSION_VIDEO_CODECS : List String
  FORCE_CONVERSION_AUDIO_CODECS : List String
  DEFAULT_AUDIO_BITRATE : String
  BITRATE_AUDIO_MAP : Int → Option String
  MULTITHREADING_ENABLED : Bool
  DEFAULT_CRF : String
  COPY_ALL_AUDIO_OR_VIDEO_STREAMS_OF_ALLOWED_CODECS : Bool

/-- The values the configuration section of the source assigns. -/
def defaultConfig : Config where
  OUTPUT_VIDEO_CODEC := "libx265"
  OUTPUT_AUDIO_CODEC := "aac"
  FORCE_CONVERSION_VIDEO_CODECS := ["MPEG4-XVID"]
  FORCE_CONVERSION_AUDIO_CODECS := ["DTS", "TRUEHD"]
  DEFAULT_AUDIO_BITRATE := "768k"
  BITRATE_AUDIO_MAP := fun n =>
    if n = 2 then some "384k"
    else if n = 3 then some "448k"
    else if n = 5 then some "768k"
    else if n = 6 then some "768k"
    else if n = 7 then some "1024k"
    else if n = 8 then some "1536k"
    else none
  MULTITHREADING_ENABLED := true
  DEFAULT_CRF := "20"
  COPY_ALL_AUDIO_OR_VIDEO_STREAMS_OF_ALLOWED_CODECS := false

/-- NUMBER_OF_THREADS: cpu_count clamped to at most 16. -/
def numberOfThreads (cpu_count : Nat) : Nat :=
  if cpu_count > 16 then 16 else cpu_count

/-- SUPPORTED_EXTENSIONS from the source. -/
def SUPPORTED_EXTENSIONS : List String :=
  [".avi", ".mkv", ".mp4", ".mpg", ".mpeg", ".mov", ".wmv"]

/-- A Python value found under the channels key of the probe JSON:
either an integer or a descriptor string. -/
inductive ChannelVal where
  | i (n : Int)
  | s (v : String)
deriving DecidableEq

/-- The audio_metadata dict built by scan_file when an audio stream is
present; both keys are always set, possibly to None. -/
structure AudioMeta where
  channels : Option ChannelVal
  sample_rate : Option String
deriving DecidableEq

/-- The dict returned by scan_file: none for audio_metadata models the
empty dict left when no audio stream was found. -/
structure ScanRes where
  video_codec : Option String
  audio_codec : Option String
  audio_metadata : Option AudioMeta
  bitrate_kbps : ℚ
deriving DecidableEq

/-- A pathlib path of a media file: parent directory, stem and suffix
(the suffix carries the leading dot, as in Python). -/
structure MediaPath where
  parent : String
  stem : String
  suffix : String
deriving DecidableEq

/-- str(path) for a MediaPath. -/
def MediaPath.str (p : MediaPath) : String :=
  p.parent ++ "/" ++ p.stem ++ p.suffix

/-- path.name for a MediaPath. -/
def MediaPath.name (p : MediaPath) : String :=
  p.stem ++ p.suffix

/-- should_convert from the source.  Returns the triple
(convert_video, convert_audio, convert_video_force_bitrate_limit). -/
def should_convert (cfg : Config) (video_codec audio_codec : String)
    (bitrate_kbps : ℚ) (max_video_bitrate : Int) (force_mode_enabled : Bool) :
    Bool × Bool × Bool :=
  if force_mode_enabled then
    (true, true,
      decide (0 < max_video_bitrate) && decide ((max_video_bitrate : ℚ) < bitrate_kbps))
  else
    ((cfg.FORCE_CONVERSION_VIDEO_CODECS.any fun forced_codec =>
        if pyContainsChar forced_codec '-' then
          pyUpper video_codec == forced_codec
        else
          pyStartsWith (pyUpper video_codec) forced_codec)
      || (decide (0 < max_video_bitrate) && decide ((max_video_bitrate : ℚ) < bitrate_kbps)),
     cfg.FORCE_CONVERSION_AUDIO_CODECS.contains (pyUpper audio_codec),
     decide (0 < max_video_bitrate) && decide ((max_video_bitrate : ℚ) < bitrate_kbps))

/-- One entry of the forced-video list matches the codec label: entries
containing a dash compare for equality with the uppercased label, the
others as a leading substring of it. -/
lemma forced_video_entry_iff (v fc : String) :
    ((if pyContainsChar fc '-' then pyUpper v == fc
      else pyStartsWith (pyUpper v) fc) = true) ↔
      ((pyContainsChar fc '-' = true ∧ pyUpper v = fc) ∨
       (pyContainsChar fc '-' = false ∧ pyStartsWith (pyUpper v) fc = true)) := by
  cases h : pyContainsChar fc '-' <;> simp [h]

/-- C1: with force mode off, convert_video holds iff the video codec label
matches some forced-video entry (dash entries by equality with the
uppercased label, dash-free entries as its leading substring) or the
bitrate threshold is exceeded, and convert_audio holds iff the uppercased
audio codec is exactly a forced-audio entry; in particular video codec
MPEG4-XVID with forced list MPEG4-XVID and audio codec AC3 with forced
list DTS, TRUEHD gives convert_video true and convert_audio false. -/
theorem should_convert_normal_mode_spec :
    (∀ (cfg : Config) (v a : String) (br : ℚ) (mx : Int),
      (((should_convert cfg v a br mx false).1 = true) ↔
        ((∃ fc ∈ cfg.FORCE_CONVERSION_VIDEO_CODECS,
            (pyContainsChar fc '-' = true ∧ pyUpper v = fc) ∨
            (pyContainsChar fc '-' = false ∧ pyStartsWith (pyUpper v) fc = true))
         ∨ (0 < mx ∧ (mx : ℚ) < br)))
      ∧ (((should_convert cfg v a br mx false).2.1 = true) ↔
          pyUpper a ∈ cfg.FORCE_CONVERSION_AUDIO_CODECS))
    ∧ should_convert defaultConfig "MPEG4-XVID" "AC3" 0 0 false = (true, false, false) := by
  constructor
  · intro cfg v a br mx
    constructor
    · simp only [should_convert, if_neg Bool.false_ne_true, Bool.or_eq_true,
        Bool.and_eq_true, decide_eq_true_eq, List.any_eq_true]
      constructor
      · rintro (⟨fc, hmem, hfc⟩ | hbr)
        · exact Or.inl ⟨fc, hmem, (forced_video_entry_iff v fc).mp hfc⟩
        · exact Or.inr hbr
      · rintro (⟨fc, hmem, hfc⟩ | hbr)
        · exact Or.inl ⟨fc, hmem, (forced_video_entry_iff v fc).mpr hfc⟩
        · exact Or.inr hbr
    · simp only [should_convert, if_neg Bool.false_ne_true]
      exact List.elem_iff
  · decide

/-- C2: with force mode on, the decision is convert both, for every
configuration and every pair of detected codecs. -/
theorem should_convert_force_mode_spec
    (cfg : Config) (v a : String) (br : ℚ) (mx : Int) :
    (should_convert cfg v a br mx true).1 = true ∧
    (should_convert cfg v a br mx true).2.1 = true := by
  simp [should_convert]

/-- C3: in both modes the third component of the decision holds iff the
bitrate limit is configured and exceeded; and at limit 2000 with detected
bitrate 2500 the video is flagged for conversion with the limit flag set
even though codec H264 matches no entry of the default forced list. -/
theorem bitrate_limit_flag_spec :
    (∀ (cfg : Config) (v a : String) (br : ℚ) (mx : Int) (fm : Bool),
      ((should_convert cfg v a br mx fm).2.2 = true) ↔ (0 < mx ∧ (mx : ℚ) < br))
    ∧ (should_convert defaultConfig "H264" "AAC" 2500 2000 false).1 = true
    ∧ (should_convert defaultConfig "H264" "AAC" 2500 2000 false).2.2 = true := by
  refine ⟨?_, by decide, by decide⟩
  intro cfg v a br mx fm
  cases fm <;>
    simp [should_convert]

/-- A single quote character, written via its code point. -/
def squote : String := String.singleton (Char.ofNat 39)

/-- The regex match of a channel descriptor string: a leading digit,
optionally followed by a dot and a second digit, summed as front plus
LFE; no leading digit means no match. -/
def parseChannels (s : String) : Option Int :=
  match s.data with
  | [] => none
  | c1 :: rest =>
    if c1.isDigit then
      let front : Int := (c1.toNat - 48 : Nat)
      match rest with
      | '.' :: c2 :: _ =>
        if c2.isDigit then some (front + ((c2.toNat - 48 : Nat) : Int)) else some front
      | _ => some front
    else none

/-- ch_num in build_audio_args: an integer channel value is taken
directly, a string is parsed, anything else stays unknown. -/
def rawChNum : Option ChannelVal → Option Int
  | some (.i n) => some n
  | some (.s v) => parseChannels v
  | none => none

/-- ch_desc in build_audio_args before the codec clamp. -/
def rawChDesc : Option Int → String
  | some n =>
    if n > 8 then toString n ++ "ch"
    else if n = 8 then "7.1"
    else if n = 6 then "5.1"
    else if n = 2 then "2.0"
    else if n = 1 then "Mono"
    else toString n ++ "ch"
  | none => "5.1"

/-- The AC3 and EAC3 clamp: those output codecs cap the derived label
7.1 back to 5.1 and the channel count to six. -/
def clampAC3 (output_codec : String) (ch_desc : String) (ch_num : Option Int) :
    String × Option Int :=
  if (pyUpper output_codec == "AC3" || pyUpper output_codec == "EAC3") && (ch_desc == "7.1") then
    ("5.1", some 6)
  else
    (ch_desc, ch_num)

/-- BITRATE_AUDIO_MAP.get with the default bitrate as fallback; a missing
channel count is not a key of the map. -/
def lookupBitrate (cfg : Config) : Option Int → String
  | none => cfg.DEFAULT_AUDIO_BITRATE
  | some n => (cfg.BITRATE_AUDIO_MAP n).getD cfg.DEFAULT_AUDIO_BITRATE

/-- The sr value interpolated into the title: a question mark when the
metadata dict is empty, the Python rendering of None when the key holds
None, else the probed string. -/
def srString : Option AudioMeta → String
  | none => "?"
  | some m =>
    match m.sample_rate with
    | none => "None"
    | some s => s

/-- build_audio_args from the source. -/
def build_audio_args (cfg : Config) (input_path : MediaPath) (convert_audio : Bool)
    (original_audio_codec output_audio_codec : String)
    (scan_func : MediaPath → ScanRes) : List String :=
  if convert_audio then
    let audio_info := (scan_func input_path).audio_metadata
    let ch : Option ChannelVal :=
      match audio_info with
      | none => none
      | some m => m.channels
    let sr : String := srString audio_info
    let ch_num0 := rawChNum ch
    let ch_desc0 := rawChDesc ch_num0
    let clamped := clampAC3 cfg.OUTPUT_AUDIO_CODEC ch_desc0 ch_num0
    let ch_desc := clamped.1
    let ch_num := clamped.2
    let bitrate := lookupBitrate cfg ch_num
    let title := pyUpper cfg.OUTPUT_AUDIO_CODEC ++ " Audio / " ++ ch_desc ++ " / " ++ sr
      ++ " Hz / " ++ bitrate
    ["-map", "0:a:0", "-map_metadata", "-1", "-c:a", cfg.OUTPUT_AUDIO_CODEC, "-b:a", bitrate,
     "-metadata:s:a:0", "title=" ++ squote ++ title ++ squote]
    ++ (if pyUpper cfg.OUTPUT_AUDIO_CODEC == "AC3" || pyUpper cfg.OUTPUT_AUDIO_CODEC == "EAC3" then
          ["-ac", "6", "-channel_layout", "5.1"]
        else
          match ch_num with
          | some n => if n ≠ 0 ∧ 2 < n then ["-ac", toString n] else []
          | none => [])
    ++ ["-ar", "48000", "-metadata:s:a:0", "BPS=" ++ pyReplaceChar bitrate 'k' "000"]
  else
    (if cfg.COPY_ALL_AUDIO_OR_VIDEO_STREAMS_OF_ALLOWED_CODECS then ["-map", "0:a"]
     else ["-map", "0:a:0"]) ++ ["-c:a", "copy"]

/-- C4: when the configured output audio codec upper-cases to AC3 or EAC3
and the derived channel count is eight (label 7.1), the clamp forces the
label back to 5.1 and the count to six, and the emitted bitrate is the
map entry at key six. -/
theorem ac3_clamp_spec (cfg : Config) (p : MediaPath)
    (scan_func : MediaPath → ScanRes) (m : AudioMeta)
    (hcodec : pyUpper cfg.OUTPUT_AUDIO_CODEC = "AC3" ∨ pyUpper cfg.OUTPUT_AUDIO_CODEC = "EAC3")
    (hm : (scan_func p).audio_metadata = some m)
    (hch : rawChNum m.channels = some 8) (oa ob : String) :
    rawChDesc (some 8) = "7.1"
    ∧ clampAC3 cfg.OUTPUT_AUDIO_CODEC (rawChDesc (some 8)) (some 8) = ("5.1", some 6)
    ∧ build_audio_args cfg p true oa ob scan_func =
      ["-map", "0:a:0", "-map_metadata", "-1", "-c:a", cfg.OUTPUT_AUDIO_CODEC,
       "-b:a", lookupBitrate cfg (some 6),
       "-metadata:s:a:0",
       "title=" ++ squote ++ pyUpper cfg.OUTPUT_AUDIO_CODEC ++ " Audio / 5.1 / "
         ++ srString (some m) ++ " Hz / " ++ lookupBitrate cfg (some 6) ++ squote,
       "-ac", "6", "-channel_layout", "5.1", "-ar", "48000",
       "-metadata:s:a:0", "BPS=" ++ pyReplaceChar (lookupBitrate cfg (some 6)) 'k' "000"] := by
  refine ⟨by decide, ?_, ?_⟩
  · rcases hcodec with h | h <;> simp [clampAC3, rawChDesc, h]
  · rcases hcodec with h | h <;>
      simp [build_audio_args, hm, hch, clampAC3, rawChDesc, srString, h,
        String.append_assoc]

/-- C5: a missing or unparsable channel value falls back to the 5.1
six-channel assumption with the default bitrate, an integer channel
count is used directly, and a descriptor string such as 5.1 is parsed
as front plus LFE and summed. -/
theorem channel_default_spec (cfg : Config) (p : MediaPath)
    (scan_func : MediaPath → ScanRes) (m : AudioMeta)
    (hm : (scan_func p).audio_metadata = some m)
    (hx : m.channels = none ∨ m.channels = some (.s "x")) (oa ob : String) :
    (∀ n : Int, rawChNum (some (.i n)) = some n)
    ∧ rawChNum (some (.s "5.1")) = some 6
    ∧ rawChNum m.channels = none
    ∧ rawChDesc none = "5.1"
    ∧ lookupBitrate cfg none = cfg.DEFAULT_AUDIO_BITRATE
    ∧ build_audio_args cfg p true oa ob scan_func =
      ["-map", "0:a:0", "-map_metadata", "-1", "-c:a", cfg.OUTPUT_AUDIO_CODEC,
       "-b:a", cfg.DEFAULT_AUDIO_BITRATE,
       "-metadata:s:a:0",
       "title=" ++ squote ++ pyUpper cfg.OUTPUT_AUDIO_CODEC ++ " Audio / 5.1 / "
         ++ srString (some m) ++ " Hz / " ++ cfg.DEFAULT_AUDIO_BITRATE ++ squote]
      ++ (if pyUpper cfg.OUTPUT_AUDIO_CODEC == "AC3" || pyUpper cfg.OUTPUT_AUDIO_CODEC == "EAC3"
          then ["-ac", "6", "-channel_layout", "5.1"] else [])
      ++ ["-ar", "48000", "-metadata:s:a:0",
          "BPS=" ++ pyReplaceChar cfg.DEFAULT_AUDIO_BITRATE 'k' "000"] := by
  have hnum : rawChNum m.channels = none := by
    rcases hx with h | h <;> simp [rawChNum, h, parseChannels]
  refine ⟨fun n => rfl, rfl, hnum, rfl, rfl, ?_⟩
  by_cases hc : pyUpper cfg.OUTPUT_AUDIO_CODEC == "AC3" || pyUpper cfg.OUTPUT_AUDIO_CODEC == "EAC3" <;>
    simp [build_audio_args, hm, hnum, clampAC3, rawChDesc, srString, hc,
      lookupBitrate, String.append_assoc]

/-- build_video_args from the source. -/
def build_video_args (cfg : Config) (input_path : MediaPath) (convert_video : Bool)
    (output_video_codec : String) (crf : String) (force_bitrate_limit : Bool)
    (max_video_bitrate : Int) (output_ext : String) : List String :=
  if convert_video then
    let base := ["-map", "0:v:0", "-c:v", cfg.OUTPUT_VIDEO_CODEC, "-preset", "fast", "-crf", crf]
    let target_kbps : Option Int :=
      if force_bitrate_limit && decide (0 < max_video_bitrate) then some max_video_bitrate
      else none
    match target_kbps with
    | some t =>
      base ++ ["-x265-params", "vbv-maxrate=" ++ toString t ++ ":vbv-bufsize=" ++ toString (t * 2)]
    | none => base
  else
    (if cfg.COPY_ALL_AUDIO_OR_VIDEO_STREAMS_OF_ALLOWED_CODECS then ["-map", "0:v"]
     else ["-map", "0:v:0"]) ++ ["-c:v", "copy"]

/-- The ffmpeg argument list assembled by convert_file. -/
def convert_file_cmd (cfg : Config) (cpu_count : Nat) (input_path output_path : MediaPath)
    (convert_video convert_audio : Bool) (original_video_codec original_audio_codec : String)
    (crf : String) (force_bitrate_limit : Bool) (max_video_bitrate : Int)
    (scan_func : MediaPath → ScanRes) : List String :=
  ["ffmpeg", "-y", "-i", input_path.str]
  ++ (if pyLower input_path.suffix == ".mkv" && pyLower output_path.suffix == ".mkv" then
        ["-map", "0:s?", "-c:s", "copy"]
      else [])
  ++ build_video_args cfg input_path convert_video cfg.OUTPUT_VIDEO_CODEC crf
       force_bitrate_limit max_video_bitrate (pyLower output_path.suffix)
  ++ build_audio_args cfg input_path convert_audio original_audio_codec
       cfg.OUTPUT_AUDIO_CODEC scan_func
  ++ (if cfg.MULTITHREADING_ENABLED then ["-threads", toString (numberOfThreads cpu_count)]
      else [])
  ++ [output_path.str]

/-- C6: the synthesized command is the input specification, then the
subtitle stream-copy directive exactly when input and output suffixes are
both mkv, then the video block, then the audio block, then a thread-count
directive whose value never exceeds sixteen, then the output path. -/
theorem convert_cmd_order_spec (cfg : Config) (cpu_count : Nat)
    (input_path output_path : MediaPath) (cv ca : Bool) (ovc oac : String)
    (crf : String) (fbl : Bool) (mx : Int) (scan_func : MediaPath → ScanRes)
    (hmt : cfg.MULTITHREADING_ENABLED = true) :
    convert_file_cmd cfg cpu_count input_path output_path cv ca ovc oac crf fbl mx scan_func =
      ["ffmpeg", "-y", "-i", input_path.str]
      ++ (if pyLower input_path.suffix == ".mkv" && pyLower output_path.suffix == ".mkv" then
            ["-map", "0:s?", "-c:s", "copy"]
          else [])
      ++ build_video_args cfg input_path cv cfg.OUTPUT_VIDEO_CODEC crf fbl mx
           (pyLower output_path.suffix)
      ++ build_audio_args cfg input_path ca oac cfg.OUTPUT_AUDIO_CODEC scan_func
      ++ ["-threads", toString (numberOfThreads cpu_count)]
      ++ [output_path.str]
    ∧ numberOfThreads cpu_count ≤ 16 := by
  constructor
  · simp [convert_file_cmd, hmt]
  · unfold numberOfThreads
    split <;> omega

/-- C7: command synthesis is deterministic: two scans that agree on the
input path give byte-identical argument lists when every other input of
the synthesis is the same. -/
theorem convert_cmd_deterministic_spec (cfg : Config) (cpu_count : Nat)
    (input_path output_path : MediaPath) (cv ca : Bool) (ovc oac : String)
    (crf : String) (fbl : Bool) (mx : Int)
    (scan_one scan_two : MediaPath → ScanRes)
    (hscan : scan_one input_path = scan_two input_path) :
    convert_file_cmd cfg cpu_count input_path output_path cv ca ovc oac crf fbl mx scan_one =
    convert_file_cmd cfg cpu_count input_path output_path cv ca ovc oac crf fbl mx scan_two := by
  simp only [convert_file_cmd, build_audio_args, hscan]

/-- The output extension chosen in process_file: mp4 when the MP4 flag is
set, else mkv for mkv inputs and mp4 for everything else. -/
def outputExtFor (force_mp4 : Bool) (suffix : String) : String :=
  if force_mp4 then ".mp4" else if pyLower suffix == ".mkv" then ".mkv" else ".mp4"

/-- The run-time adjustments the main block applies to the configuration:
the MP4 flag clears the copy-all-streams switch, and both forced-codec
lists are uppercased. -/
def runConfig (base : Config) (force_mp4 : Bool) : Config :=
  { base with
    COPY_ALL_AUDIO_OR_VIDEO_STREAMS_OF_ALLOWED_CODECS :=
      if force_mp4 then false
      else base.COPY_ALL_AUDIO_OR_VIDEO_STREAMS_OF_ALLOWED_CODECS
    FORCE_CONVERSION_VIDEO_CODECS := base.FORCE_CONVERSION_VIDEO_CODECS.map pyUpper
    FORCE_CONVERSION_AUDIO_CODECS := base.FORCE_CONVERSION_AUDIO_CODECS.map pyUpper }

/-- A configuration identical to the shipped one except that the
copy-all-streams switch is turned on, as its comment invites. -/
def copyAllConfig : Config :=
  { defaultConfig with COPY_ALL_AUDIO_OR_VIDEO_STREAMS_OF_ALLOWED_CODECS := true }

/-- C8 counterexample: with the copy-all switch on and the MP4 flag off,
an avi input still gets an MP4 output container, yet the switch survives
the run-time adjustment and the video stream-copy directive maps all
video streams rather than only the first. -/
theorem copy_all_mp4_counterexample :
    outputExtFor false ".avi" = ".mp4"
    ∧ (runConfig copyAllConfig false).COPY_ALL_AUDIO_OR_VIDEO_STREAMS_OF_ALLOWED_CODECS = true
    ∧ build_video_args (runConfig copyAllConfig false)
        ⟨"/videos", "movie", ".avi"⟩ false "libx265" "20" false 0 ".mp4" =
        ["-map", "0:v", "-c:v", "copy"]
    ∧ ["-map", "0:v", "-c:v", "copy"] ≠ ["-map", "0:v:0", "-c:v", "copy"] := by
  refine ⟨rfl, rfl, ?_, by decide⟩
  simp [build_video_args, runConfig, copyAllConfig, defaultConfig]

/-- C8 amended: the copy-all-streams switch is cleared exactly when the
force-MP4 flag is set; in such runs the stream-copy directives for video
and audio select only the first stream of their kind. -/
theorem copy_all_mp4_flag_spec (base : Config) (p : MediaPath)
    (scan_func : MediaPath → ScanRes) (ovc oac crf oext : String) (fbl : Bool) (mx : Int) :
    (runConfig base true).COPY_ALL_AUDIO_OR_VIDEO_STREAMS_OF_ALLOWED_CODECS = false
    ∧ build_video_args (runConfig base true) p false ovc crf fbl mx oext =
        ["-map", "0:v:0", "-c:v", "copy"]
    ∧ build_audio_args (runConfig base true) p false oac oac scan_func =
        ["-map", "0:a:0", "-c:a", "copy"] := by
  refine ⟨rfl, ?_, ?_⟩
  · simp [build_video_args, runConfig]
  · simp [build_audio_args, runConfig]

/-- The result of process_file for one file, with the skip class it was
put in; only a converted file carries a synthesized command. -/
inductive ProcessOutcome where
  | skippedAlreadyConverted
  | skippedUnsupportedExt
  | skippedOutputExists
  | skippedUndetectable
  | skippedAlreadyCorrect
  | converted (cmd : List String)
deriving DecidableEq

/-- The boolean process_file returns: true only for a converted file. -/
def ProcessOutcome.returnValue : ProcessOutcome → Bool
  | .converted _ => true
  | _ => false

/-- The type of the decision function process_file consults. -/
abbrev DecideFn := String → String → ℚ → Int → Bool → Bool × Bool × Bool

/-- process_file from the source, with the filesystem answer about the
existence of the output file and the decision function as parameters. -/
def process_file (cfg : Config) (cpu_count : Nat) (decide_fn : DecideFn)
    (scan_func : MediaPath → ScanRes) (file_path : MediaPath) (crf : String)
    (force_mp4 : Bool) (max_video_bitrate : Int) (force_mode_enabled : Bool)
    (output_exists : Bool) : ProcessOutcome :=
  if pyStartsWith file_path.name "conv-" then .skippedAlreadyConverted
  else if ¬ (SUPPORTED_EXTENSIONS.contains (pyLower file_path.suffix)) then .skippedUnsupportedExt
  else
    let output_path : MediaPath :=
      ⟨file_path.parent, "conv-" ++ file_path.stem, outputExtFor force_mp4 file_path.suffix⟩
    if output_exists then .skippedOutputExists
    else
      let codecs := scan_func file_path
      if pyFalsyOpt codecs.video_codec || pyFalsyOpt codecs.audio_codec then
        .skippedUndetectable
      else
        let r := decide_fn (codecs.video_codec.getD "") (codecs.audio_codec.getD "")
          codecs.bitrate_kbps max_video_bitrate force_mode_enabled
        if !r.1 && !r.2.1 then .skippedAlreadyCorrect
        else .converted (convert_file_cmd cfg cpu_count file_path output_path r.1 r.2.1
          (codecs.video_codec.getD "") (codecs.audio_codec.getD "") crf r.2.2
          max_video_bitrate scan_func)

/-- C9: a probed file missing either codec is classified as the
undetectable skip, the outcome does not depend on the decision function
at all, and the boolean returned is false, so no command is built. -/
theorem undetectable_skip_spec (cfg : Config) (cpu_count : Nat)
    (decide_fn : DecideFn) (scan_func : MediaPath → ScanRes) (file_path : MediaPath)
    (crf : String) (force_mp4 : Bool) (mx : Int) (fm : Bool)
    (hconv : pyStartsWith file_path.name "conv-" = false)
    (hext : SUPPORTED_EXTENSIONS.contains (pyLower file_path.suffix) = true)
    (hmiss : (scan_func file_path).video_codec = none ∨ (scan_func file_path).audio_codec = none) :
    process_file cfg cpu_count decide_fn scan_func file_path crf force_mp4 mx fm false =
      .skippedUndetectable
    ∧ (∀ other_fn : DecideFn,
        process_file cfg cpu_count other_fn scan_func file_path crf force_mp4 mx fm false =
        process_file cfg cpu_count decide_fn scan_func file_path crf force_mp4 mx fm false)
    ∧ (process_file cfg cpu_count decide_fn scan_func file_path crf force_mp4 mx fm
        false).returnValue = false := by
  have hfal : (pyFalsyOpt (scan_func file_path).video_codec
      || pyFalsyOpt (scan_func file_path).audio_codec) = true := by
    rcases hmiss with h | h <;> simp [pyFalsyOpt, h]
  have hmem : pyLower file_path.suffix ∈ SUPPORTED_EXTENSIONS := List.elem_iff.mp hext
  have hmain : process_file cfg cpu_count decide_fn scan_func file_path crf force_mp4 mx fm
      false = .skippedUndetectable := by
    simp [process_file, hconv, hext, hfal, hmem]
  refine ⟨hmain, ?_, by simp [hmain, ProcessOutcome.returnValue]⟩
  intro other_fn
  rw [hmain]
  simp [process_file, hconv, hext, hfal, hmem]

/-- The missing-input-path guard of parse_args: after the help check, an
absent or empty positional path exits with code one only when the
info-only flag is not set; otherwise the parsed arguments are returned.
Exits are modelled as the error side of Except with the exit code. -/
def parse_args_missing_input (input_path : Option String) (info_only show_help : Bool) :
    Except Nat (Option String) :=
  if show_help then .error 0
  else if pyFalsyOpt input_path && !info_only then .error 1
  else .ok input_path

/-- C10: with the info-only flag set and no positional input path,
parse_args does not exit with code one but returns normally with the
missing path, while the same invocation without the flag does exit with
code one. -/
theorem info_only_missing_path_spec :
    parse_args_missing_input none true false = .ok none
    ∧ parse_args_missing_input none true false ≠ .error 1
    ∧ parse_args_missing_input none false false = .error 1 := by
  refine ⟨rfl, ?_, rfl⟩
  have h1 : parse_args_missing_input none true false = .ok none := rfl
  rw [h1]
  intro h
  exact Except.noConfusion h

/-- A configuration whose output audio codec is EAC3, as scenario B uses. -/
def eac3Config : Config := { defaultConfig with OUTPUT_AUDIO_CODEC := "EAC3" }

/-- Concrete audio metadata with eight integer channels. -/
def wMeta8 : AudioMeta := ⟨some (.i 8), some "48000"⟩

/-- Concrete audio metadata whose channel value is the unparsable x. -/
def wMetaX : AudioMeta := ⟨some (.s "x"), some "44100"⟩

/-- A concrete input path. -/
def wIn : MediaPath := ⟨"/videos", "movie", ".mkv"⟩

/-- A concrete output path. -/
def wOut : MediaPath := ⟨"/videos", "conv-movie", ".mkv"⟩

/-- A scan that reports eight audio channels for every path. -/
def wScan8 : MediaPath → ScanRes := fun _ => ⟨some "H264", some "DTS", some wMeta8, 0⟩

/-- A scan that reports the unparsable channel value for every path. -/
def wScanX : MediaPath → ScanRes := fun _ => ⟨some "H264", some "DTS", some wMetaX, 0⟩

/-- A scan that fails to detect the video codec. -/
def wScanNone : MediaPath → ScanRes := fun _ => ⟨none, some "AC3", none, 0⟩

/-- Witness for C4 at output codec EAC3 and eight probed channels. -/
theorem ac3_clamp_witness :
    pyUpper eac3Config.OUTPUT_AUDIO_CODEC = "EAC3"
    ∧ rawChNum wMeta8.channels = some 8
    ∧ (rawChDesc (some 8) = "7.1"
      ∧ clampAC3 eac3Config.OUTPUT_AUDIO_CODEC (rawChDesc (some 8)) (some 8) = ("5.1", some 6)
      ∧ build_audio_args eac3Config wIn true "DTS" "EAC3" wScan8 =
        ["-map", "0:a:0", "-map_metadata", "-1", "-c:a", eac3Config.OUTPUT_AUDIO_CODEC,
         "-b:a", lookupBitrate eac3Config (some 6),
         "-metadata:s:a:0",
         "title=" ++ squote ++ pyUpper eac3Config.OUTPUT_AUDIO_CODEC ++ " Audio / 5.1 / "
           ++ srString (some wMeta8) ++ " Hz / " ++ lookupBitrate eac3Config (some 6) ++ squote,
         "-ac", "6", "-channel_layout", "5.1", "-ar", "48000",
         "-metadata:s:a:0",
         "BPS=" ++ pyReplaceChar (lookupBitrate eac3Config (some 6)) 'k' "000"]) :=
  ⟨by decide, by decide,
    ac3_clamp_spec eac3Config wIn wScan8 wMeta8 (Or.inr (by decide)) rfl (by decide)
      "DTS" "EAC3"⟩

/-- Witness for C5 at the unparsable channel value x. -/
theorem channel_default_witness :
    wMetaX.channels = some (.s "x")
    ∧ ((∀ n : Int, rawChNum (some (.i n)) = some n)
      ∧ rawChNum (some (.s "5.1")) = some 6
      ∧ rawChNum wMetaX.channels = none
      ∧ rawChDesc none = "5.1"
      ∧ lookupBitrate defaultConfig none = defaultConfig.DEFAULT_AUDIO_BITRATE
      ∧ build_audio_args defaultConfig wIn true "DTS" "aac" wScanX =
        ["-map", "0:a:0", "-map_metadata", "-1", "-c:a", defaultConfig.OUTPUT_AUDIO_CODEC,
         "-b:a", defaultConfig.DEFAULT_AUDIO_BITRATE,
         "-metadata:s:a:0",
         "title=" ++ squote ++ pyUpper defaultConfig.OUTPUT_AUDIO_CODEC ++ " Audio / 5.1 / "
           ++ srString (some wMetaX) ++ " Hz / " ++ defaultConfig.DEFAULT_AUDIO_BITRATE ++ squote]
        ++ (if pyUpper defaultConfig.OUTPUT_AUDIO_CODEC == "AC3"
              || pyUpper defaultConfig.OUTPUT_AUDIO_CODEC == "EAC3"
            then ["-ac", "6", "-channel_layout", "5.1"] else [])
        ++ ["-ar", "48000", "-metadata:s:a:0",
            "BPS=" ++ pyReplaceChar defaultConfig.DEFAULT_AUDIO_BITRATE 'k' "000"]) :=
  ⟨rfl,
    channel_default_spec defaultConfig wIn wScanX wMetaX rfl (Or.inr rfl) "DTS" "aac"⟩

/-- Witness for C6 at a concrete mkv-to-mkv conversion with eight cores. -/
theorem convert_cmd_order_witness :
    defaultConfig.MULTITHREADING_ENABLED = true
    ∧ (convert_file_cmd defaultConfig 8 wIn wOut true true "H264" "DTS" "20" false 0 wScan8 =
        ["ffmpeg", "-y", "-i", wIn.str]
        ++ (if pyLower wIn.suffix == ".mkv" && pyLower wOut.suffix == ".mkv" then
              ["-map", "0:s?", "-c:s", "copy"]
            else [])
        ++ build_video_args defaultConfig wIn true defaultConfig.OUTPUT_VIDEO_CODEC "20" false 0
             (pyLower wOut.suffix)
        ++ build_audio_args defaultConfig wIn true "DTS" defaultConfig.OUTPUT_AUDIO_CODEC wScan8
        ++ ["-threads", toString (numberOfThreads 8)]
        ++ [wOut.str]
      ∧ numberOfThreads 8 ≤ 16) :=
  ⟨rfl, convert_cmd_order_spec defaultConfig 8 wIn wOut true true "H264" "DTS" "20" false 0
    wScan8 rfl⟩

/-- Witness for C7: two identical scans give the same command. -/
theorem convert_cmd_deterministic_witness :
    wScan8 wIn = wScan8 wIn
    ∧ convert_file_cmd defaultConfig 8 wIn wOut true true "H264" "DTS" "20" false 0 wScan8 =
      convert_file_cmd defaultConfig 8 wIn wOut true true "H264" "DTS" "20" false 0 wScan8 :=
  ⟨rfl, convert_cmd_deterministic_spec defaultConfig 8 wIn wOut true true "H264" "DTS" "20"
    false 0 wScan8 wScan8 rfl⟩

/-- Witness for C9 at a supported non-converted file whose scan found no
video codec. -/
theorem undetectable_skip_witness :
    pyStartsWith wIn.name "conv-" = false
    ∧ SUPPORTED_EXTENSIONS.contains (pyLower wIn.suffix) = true
    ∧ (wScanNone wIn).video_codec = none
    ∧ (process_file defaultConfig 8 (should_convert defaultConfig) wScanNone wIn "20" false 0
        false false = .skippedUndetectable
      ∧ (∀ other_fn : DecideFn,
          process_file defaultConfig 8 other_fn wScanNone wIn "20" false 0 false false =
          process_file defaultConfig 8 (should_convert defaultConfig) wScanNone wIn "20" false 0
            false false)
      ∧ (process_file defaultConfig 8 (should_convert defaultConfig) wScanNone wIn "20" false 0
          false false).returnValue = false) :=
  ⟨by decide, by decide, rfl,
    undetectable_skip_spec defaultConfig 8 (should_convert defaultConfig) wScanNone wIn "20"
      false 0 false (by decide) (by decide) (Or.inl rfl)⟩
